import Mathlib

/-!
# Verification of the rag-flask RAG orchestration core

Shallow embedding of the Python sources under `src/` (`rag_system.py`,
`vectorstore.py`, `document_processor.py`, `rag_chain.py`, `s3_loader.py`,
`utils.py`) and proofs about the spec's claims.

Conventions of the embedding:
* Python exceptions become `Except`/`Option` results; where a method both
  mutates `self` and may raise, the model returns the mutated state together
  with the outcome (Python keeps mutations performed before the raise).
* External collaborators (the Chroma vector-store library, the tenacity
  retry combinator, boto3/S3, the LLM) are modelled by their documented
  behaviour, made explicit below, or passed in as environment parameters.
* Filesystem directories are modelled as `Option` of their contents:
  `none` means the path is absent, `some l` means it exists with contents `l`.
-/

namespace RagFlask

/-- A text chunk with its metadata, as produced by
`DocumentProcessor.load_and_split_pdf` (`document_processor.py`):
the chunk text, `source` (base filename) and 1-indexed `page`. -/
structure Chunk where
  text : String
  source : String
  page : Nat
deriving DecidableEq, Repr

/-- `f.lower().endswith(".pdf")`, the eligibility test used both by
`RAGSystem.initialize_system` and `DocumentProcessor.load_and_split_all_pdfs`,
expressed over the string's character list. -/
def endsWithPdf (f : String) : Bool :=
  List.isSuffixOf ".pdf".data (f.data.map Char.toLower)

/-! ## document_processor.py -/

/-- The outcome of `load_and_split_pdf` on one file: either its list of
chunks, or a processing error (the method re-raises any parse failure).
The parse behaviour of each file is part of the modelled directory state. -/
abbrev FileOutcome := Except String (List Chunk)

/-- The local document directory: `none` if the path does not exist,
otherwise the directory entries in `os.listdir` order, each file paired
with what `load_and_split_pdf` would produce for it. -/
abbrev DataDir := Option (List (String × FileOutcome))

/-- The accumulation loop of `load_and_split_all_pdfs`: for each PDF file,
`try` to split it and extend the accumulator; on exception, log and
`continue` with the remaining files. -/
def splitLoop : List Chunk → List (String × FileOutcome) → List Chunk
  | acc, [] => acc
  | acc, e :: rest =>
    match e.2 with
    | Except.ok chunks => splitLoop (acc ++ chunks) rest
    | Except.error _ => splitLoop acc rest

/-- `DocumentProcessor.load_and_split_all_pdfs` (`document_processor.py`,
lines 41-72): returns `[]` if the directory does not exist; filters the
entries to names ending in `.pdf` (case-insensitive); returns `[]` if none
remain; otherwise splits each file in order, skipping files that fail. -/
def load_and_split_all_pdfs (dir : DataDir) : List Chunk :=
  match dir with
  | none => []
  | some entries =>
    let pdf_files := entries.filter (fun e => endsWithPdf e.1)
    if pdf_files.isEmpty then []
    else splitLoop [] pdf_files

/-! ## vectorstore.py -/

/-- The persisted vector-store directory (`config.VECTOR_STORE_DIR`):
`none` if absent, `some l` if it exists and holds the persisted chunks
(`some []` is an existing directory with nothing persisted in it). -/
structure VectorFS where
  persist : Option (List Chunk)
deriving DecidableEq, Repr

/-- Models the `langchain_community` `Chroma` constructor called by
`VectorStoreManager.load_vector_store`: opening a persist directory never
raises — when no data is persisted there (directory absent or empty),
Chroma creates the collection on demand and yields an empty store. -/
def chromaOpen (fs : VectorFS) : List Chunk :=
  match fs.persist with
  | some l => l
  | none => []

/-- `VectorStoreManager.load_vector_store` (`vectorstore.py`, lines 37-49):
constructs a `Chroma` over the persist directory inside a `try` block and
re-raises whatever the constructor raises; since the constructor is total
(`chromaOpen`), the method always returns the opened store. -/
def load_vector_store (fs : VectorFS) : Except String (List Chunk) :=
  Except.ok (chromaOpen fs)

/-- `VectorStoreManager.create_vector_store` (`vectorstore.py`, lines 21-35):
`Chroma.from_documents` embeds and persists the chunks at the persist
directory; the persistence step may fail (a `StorageError`), modelled by the
`persistOk` flag of the environment. On success the persisted directory
holds exactly the new chunks. -/
def create_vector_store (persistOk : Bool) (fs : VectorFS) (chunks : List Chunk) :
    Except String (List Chunk) × VectorFS :=
  if persistOk then (Except.ok chunks, { persist := some chunks })
  else (Except.error "Failed to create vector store", fs)

/-- `VectorStoreManager.clear_vector_store` (`vectorstore.py`, lines 51-61):
`if os.path.exists(persist_directory): shutil.rmtree(...); os.makedirs(...)`.
If the directory exists it is deleted and recreated empty; if it does not
exist, nothing happens and no error is raised. -/
def clear_vector_store (fs : VectorFS) : VectorFS :=
  match fs.persist with
  | some _ => { persist := some [] }
  | none => fs

/-! ## utils.py -/

/-- Whitespace as Python's `str.strip()` removes it (the ASCII whitespace
characters; the strings at issue in the spec are ASCII). -/
def isStripWs (c : Char) : Bool :=
  c == ' ' || c == '\t' || c == '\n' || c == '\r'

/-- Python's `question.strip()`: drop leading and trailing whitespace. -/
def pyStrip (s : String) : String :=
  String.mk (((s.data.dropWhile isStripWs).reverse.dropWhile isStripWs).reverse)

/-- `validate_question` (`utils.py`, lines 16-22). A question that is not a
string (`not isinstance(question, str)`) is modelled as `none`. The code
checks `len(question.strip()) < 3`: the length of the *whole* trimmed
string, interior whitespace included. -/
def validate_question (question : Option String) : Bool :=
  match question with
  | none => false
  | some q => if (pyStrip q).length < 3 then false else true

/-! ## rag_chain.py -/

/-- The built runnable chain: `as_retriever(search_type="similarity", k=3)`
composed with the prompt template, the `ChatOllama` model and the string
output parser. Retrieval/prompting internals are black-box capabilities;
the chain object records what they are bound to. -/
structure Chain where
  store : List Chunk
  k : Nat
  llmModel : String
deriving DecidableEq, Repr

/-- The `RAGChain` object state: config fields it reads, the vector store
it was constructed over, and the `chain` attribute (`None` until built). -/
structure RAGChainS where
  llmModel : String
  contextWindow : Nat
  vector_store : List Chunk
  chain : Option Chain
deriving DecidableEq, Repr

/-- The chain composition `build_chain` assigns to `self.chain`. -/
def mkChain (rc : RAGChainS) : Chain :=
  { store := rc.vector_store, k := 3, llmModel := rc.llmModel }

/-- `RAGChain.build_chain` (`rag_chain.py`, lines 20-52): constructs
`ChatOllama`, the retriever and the prompt, assigns the composition to
`self.chain` and returns it; any constructor failure is re-raised before
`self.chain` is assigned. `llmOk` models whether those constructors raise. -/
def build_chain (llmOk : Except String Unit) (rc : RAGChainS) :
    Except String (Chain × RAGChainS) :=
  match llmOk with
  | Except.error e => Except.error e
  | Except.ok _ => Except.ok (mkChain rc, { rc with chain := some (mkChain rc) })

/-- Errors surfaced by `RAGChain.query`: the `ValueError` from input
validation, a failure while lazily building the chain, or a failure from
`self.chain.invoke` (re-raised). -/
inductive QueryErr
  | invalidInput
  | buildError (msg : String)
  | llmError (msg : String)
deriving DecidableEq, Repr

/-- `RAGChain.query` (`rag_chain.py`, lines 54-70). Raises `ValueError`
unless the question is a string with `len(question.strip()) >= 3`; then
lazily builds the chain if `self.chain` is unset; then invokes it,
re-raising invocation errors. Returns the outcome together with the
object state after the call (Python keeps mutations made before a raise),
with `invoke` modelling the LLM call. -/
def RAGChain_query (llmOk : Except String Unit)
    (invoke : Chain → String → Except String String)
    (rc : RAGChainS) (question : Option String) :
    Except QueryErr String × RAGChainS :=
  match question with
  | none => (Except.error QueryErr.invalidInput, rc)
  | some q =>
    if (pyStrip q).length < 3 then (Except.error QueryErr.invalidInput, rc)
    else
      match (match rc.chain with
             | some c => Except.ok (c, rc)
             | none => build_chain llmOk rc) with
      | Except.error e => (Except.error (QueryErr.buildError e), rc)
      | Except.ok (c, rc2) =>
        match invoke c q with
        | Except.ok ans => (Except.ok ans, rc2)
        | Except.error e => (Except.error (QueryErr.llmError e), rc2)

/-! ## s3_loader.py -/

/-- What the S3 client does on one attempt of `download_pdf`'s body:
the `head_object` existence check may raise a `ClientError` with a code,
the `download_file` call may raise a `ClientError` or some other
exception, or everything succeeds. -/
inductive S3Event
  | downloadOk
  | headClientError (code : String)
  | downloadClientError (code : String)
  | otherError (msg : String)
deriving DecidableEq, Repr

/-- Python exception values that one `download_pdf` body can raise. -/
inductive PyErr
  | fileNotFound (msg : String)
  | permissionError (msg : String)
  | clientError (code : String)
  | otherError (msg : String)
deriving DecidableEq, Repr

/-- The `except ClientError` handler of `download_pdf` (`s3_loader.py`,
lines 84-96): maps `NoSuchKey`/`NoSuchBucket` to `FileNotFoundError`,
`403` to `PermissionError`, and re-raises any other `ClientError`. -/
def handleClientError (bucket filename code : String) : PyErr :=
  if code = "NoSuchKey" then
    PyErr.fileNotFound ("File " ++ filename ++ " not found in bucket " ++ bucket)
  else if code = "NoSuchBucket" then
    PyErr.fileNotFound ("Bucket " ++ bucket ++ " not found")
  else if code = "403" then
    PyErr.permissionError ("Access denied to file " ++ filename ++ " in bucket " ++ bucket)
  else PyErr.clientError code

/-- One attempt of `download_pdf`'s body (`s3_loader.py`, lines 66-97),
before the `tenacity` decorator is applied: `head_object` raising a
`ClientError` with code `404` becomes a `FileNotFoundError` (re-raised
unchanged by the trailing `except Exception` handler); any other
`ClientError`, from `head_object` or `download_file`, goes through the
`except ClientError` handler; other exceptions are re-raised. -/
def download_attempt (bucket filename localFile : String) (ev : S3Event) :
    Except PyErr String :=
  match ev with
  | S3Event.downloadOk => Except.ok localFile
  | S3Event.headClientError code =>
    if code = "404" then
      Except.error (PyErr.fileNotFound
        ("File " ++ filename ++ " not found in S3 bucket " ++ bucket))
    else Except.error (handleClientError bucket filename code)
  | S3Event.downloadClientError code =>
    Except.error (handleClientError bucket filename code)
  | S3Event.otherError msg => Except.error (PyErr.otherError msg)

/-- Result seen by the caller of a `tenacity`-decorated function with the
default `reraise=False`: either the wrapped function's value, or a
`RetryError` wrapping the last attempt's exception. -/
inductive RetryResult
  | ok (localPath : String)
  | retryError (last : PyErr)
deriving DecidableEq, Repr

/-- The `tenacity` `wait_exponential(multiplier, min, max)` delay before
the retry that follows failed attempt number `attemptNumber`:
`multiplier * 2 ** attempt_number` clamped into `[min, max]`. Recorded for
fidelity to the decorator's arguments; no claim constrains the delays. -/
def wait_exponential (multiplier minW maxW attemptNumber : Nat) : Nat :=
  max minW (min (multiplier * 2 ^ attemptNumber) maxW)

/-- The `tenacity` retry driver with `stop=stop_after_attempt(n)` and the
*default* retry predicate, which retries on *any* exception, and the
default `reraise=False`, which raises `RetryError(last_attempt)` once the
stop condition holds. `attempt` is the current 1-based attempt number and
the fuel is the number of attempts still allowed; returns the result and
the number of the attempt on which the call ended. -/
def tenacityRun (call : Nat → Except PyErr String) (attempt : Nat) :
    Nat → RetryResult × Nat
  | 0 => (RetryResult.retryError (PyErr.otherError "stopped before any attempt"), 0)
  | rem + 1 =>
    match call attempt with
    | Except.ok v => (RetryResult.ok v, attempt)
    | Except.error e =>
      if rem = 0 then (RetryResult.retryError e, attempt)
      else tenacityRun call (attempt + 1) rem

/-- `S3Downloader.download_pdf` (`s3_loader.py`, lines 61-97):
the body `download_attempt` wrapped in
`@retry(stop=stop_after_attempt(3), wait=wait_exponential(...))`.
`env n` is the S3 behaviour observed on attempt `n`. -/
def download_pdf (bucket localPath : String) (env : Nat → S3Event)
    (filename : String) : RetryResult × Nat :=
  tenacityRun
    (fun n => download_attempt bucket filename (localPath ++ "/" ++ filename) (env n))
    1 3

/-! ## rag_system.py -/

/-- The subset of `RAGConfig` (`config.py`) that `initialize_system` and
its collaborators read. -/
structure RAGConfig where
  LLM_MODEL : String
  CONTEXT_WINDOW : Nat
  DATA_DIR : String
  VECTOR_STORE_DIR : String
  S3_BUCKET_NAME : String
deriving DecidableEq, Repr

/-- One entry of the local document directory as `rag_system.py` sees it:
its name, whether `os.path.isfile` holds, and what
`DocumentProcessor.load_and_split_pdf` would produce for it. -/
structure DirEntry where
  name : String
  isFile : Bool
  outcome : FileOutcome
deriving Repr

/-- The environment of one `initialize_system` call: outcomes of the
external capabilities it invokes. `embedInit` is
`EmbeddingsManager.initialize_embeddings` (raises `ModelUnavailable`-style
errors on failure); `s3` the S3 behaviour per download attempt; `dataDir`
the local document directory (`none` if the path is absent); `persistOk`
whether `Chroma.from_documents` persistence succeeds; `llmOk` whether the
chain constructors in `build_chain` succeed. -/
structure InitEnv where
  embedInit : Except String Unit
  s3 : Nat → S3Event
  dataDir : Option (List DirEntry)
  persistOk : Bool
  llmOk : Except String Unit

/-- Mutable state of a `RAGSystem` object that `initialize_system` can
touch: the persisted vector-store directory (through its
`VectorStoreManager`) and the `rag_chain` attribute (`None` until a chain
is built). -/
structure SysState where
  fs : VectorFS
  rag_chain : Option RAGChainS
deriving DecidableEq, Repr

/-- Exceptions `initialize_system` can raise, tagged by the step raising
them. -/
inductive InitErr
  | embeddingsError (msg : String)
  | downloadError (last : PyErr)
  | dataDirMissing
  | noPdfs (dataDir : String)
  | noChunks
  | createError (msg : String)
  | buildChainError (msg : String)
deriving DecidableEq, Repr

/-- Python truthiness of the `pdf_filename` argument in
`if download_new and pdf_filename:` — `None` and `""` are falsy. -/
def truthyStr (o : Option String) : Bool :=
  match o with
  | none => false
  | some s => decide (s ≠ "")

/-- STEP 3's scan (`rag_system.py`, lines 49-52): the `os.listdir` entries
that are files and whose lowercased name ends in `.pdf`. -/
def pdfScan (entries : List DirEntry) : List String :=
  (entries.filter (fun e => e.isFile && endsWithPdf e.name)).map DirEntry.name

/-- The same directory as `DocumentProcessor.load_and_split_all_pdfs`
lists it (names with their parse outcomes; that method applies no
`isfile` check). -/
def dataView (entries : List DirEntry) : List (String × FileOutcome) :=
  entries.map (fun e => (e.name, e.outcome))

/-- STEP 5 of `initialize_system` (`rag_system.py`, lines 69-88):
`vector_store = None`; if not `force_rebuild`, `try` to load (the load
never raises, see `load_vector_store`); if `vector_store` is still `None`
or `force_rebuild`, clear the old store when forcing a rebuild and the
directory exists, then create a new one (which may fail and re-raise).
Returns the resulting store or error, with the persist directory state. -/
def initStep5 (persistOk : Bool) (fs : VectorFS) (force_rebuild : Bool)
    (chunks : List Chunk) : Except InitErr (List Chunk) × VectorFS :=
  let vector_store : Option (List Chunk) :=
    if !force_rebuild then
      match load_vector_store fs with
      | Except.ok vs => some vs
      | Except.error _ => none
    else none
  if vector_store.isNone || force_rebuild then
    let fs1 := if force_rebuild && fs.persist.isSome then clear_vector_store fs else fs
    match create_vector_store persistOk fs1 chunks with
    | (Except.ok vs, fs2) => (Except.ok vs, fs2)
    | (Except.error m, fs2) => (Except.error (InitErr.createError m), fs2)
  else (Except.ok (vector_store.getD []), fs)

/-- `RAGSystem.initialize_system` (`rag_system.py`, lines 28-97).
Steps in source order: (1) initialize the embeddings model; (2) download
one PDF when `download_new and pdf_filename` (a skipped download behaves
like a successful one: execution continues); (3) scan `DATA_DIR` for PDF
files, raising `FileNotFoundError` when none are found (`os.listdir`
itself raises if the directory is absent); (4) split all PDFs, raising
`ValueError` when no chunks result; (5) load or create the vector store;
(6) construct a `RAGChain` over it, assign it to `self.rag_chain`, and
build its chain. Returns the raised error (if any) together with the
object state after the call — mutations made before a raise persist. -/
def initSystem (cfg : RAGConfig) (env : InitEnv) (st : SysState)
    (download_new : Bool) (pdf_filename : Option String) (force_rebuild : Bool) :
    Option InitErr × SysState :=
  match env.embedInit with
  | Except.error m => (some (InitErr.embeddingsError m), st)
  | Except.ok _ =>
    match (if download_new && truthyStr pdf_filename then
             (download_pdf cfg.S3_BUCKET_NAME cfg.DATA_DIR env.s3
               (pdf_filename.getD "")).1
           else RetryResult.ok "") with
    | RetryResult.retryError e => (some (InitErr.downloadError e), st)
    | RetryResult.ok _ =>
      match env.dataDir with
      | none => (some InitErr.dataDirMissing, st)
      | some entries =>
        if (pdfScan entries).isEmpty then (some (InitErr.noPdfs cfg.DATA_DIR), st)
        else
          if (load_and_split_all_pdfs (some (dataView entries))).isEmpty then
            (some InitErr.noChunks, st)
          else
            match initStep5 env.persistOk st.fs force_rebuild
                (load_and_split_all_pdfs (some (dataView entries))) with
            | (Except.error e, fs1) => (some e, { st with fs := fs1 })
            | (Except.ok vs, fs1) =>
              match build_chain env.llmOk
                  { llmModel := cfg.LLM_MODEL, contextWindow := cfg.CONTEXT_WINDOW,
                    vector_store := vs, chain := none } with
              | Except.error m =>
                (some (InitErr.buildChainError m),
                 { fs := fs1,
                   rag_chain := some { llmModel := cfg.LLM_MODEL,
                                       contextWindow := cfg.CONTEXT_WINDOW,
                                       vector_store := vs, chain := none } })
              | Except.ok (_, rc1) => (none, { fs := fs1, rag_chain := some rc1 })

/-- The per-question loop of `run_queries` (`rag_system.py`, lines 104-114):
each question is answered through `self.rag_chain.query`; an exception is
caught and recorded, and the loop continues. The chain object's state is
threaded through (its lazy-build mutation persists across iterations). -/
def run_queries_loop (llmOk : Except String Unit)
    (invoke : Chain → String → Except String String) :
    RAGChainS → List String → List (String × Except QueryErr String)
  | _, [] => []
  | rc, q :: rest =>
    match RAGChain_query llmOk invoke rc (some q) with
    | (Except.ok ans, rc2) => (q, Except.ok ans) :: run_queries_loop llmOk invoke rc2 rest
    | (Except.error e, rc2) => (q, Except.error e) :: run_queries_loop llmOk invoke rc2 rest

/-- `RAGSystem.run_queries` (`rag_system.py`, lines 99-117):
`if not self.rag_chain:` logs an error and plain-`return`s — the caller
receives `None` and no exception. Otherwise runs every question and
returns the list of per-question results. -/
def run_queries (llmOk : Except String Unit)
    (invoke : Chain → String → Except String String)
    (st : SysState) (questions : List String) :
    Option (List (String × Except QueryErr String)) :=
  match st.rag_chain with
  | none => none
  | some rc => some (run_queries_loop llmOk invoke rc questions)

/-! ## Concrete fixtures used by witnesses and counterexamples -/

/-- A sample chunk. -/
def chunk0 : Chunk :=
  { text := "hello world", source := "doc.pdf", page := 1 }

/-- The default configuration values of `config.py`. -/
def cfg0 : RAGConfig :=
  { LLM_MODEL := "qwen2.5:3b-instruct", CONTEXT_WINDOW := 4096,
    DATA_DIR := "./data", VECTOR_STORE_DIR := "chroma_db",
    S3_BUCKET_NAME := "raggy-1" }

/-- A system state holding a usable persisted index and no built chain. -/
def stReady : SysState :=
  { fs := { persist := some [chunk0] }, rag_chain := none }

/-- An environment where every capability works but the local document
directory exists and is empty. -/
def envEmptyDir : InitEnv :=
  { embedInit := Except.ok (), s3 := fun _ => S3Event.downloadOk,
    dataDir := some [], persistOk := true, llmOk := Except.ok () }

/-- A `RAGChain` whose chain attribute has never been built. -/
def rcFresh : RAGChainS :=
  { llmModel := "qwen2.5:3b-instruct", contextWindow := 4096,
    vector_store := [chunk0], chain := none }

/-! ## Helper lemmas -/

/-- The split loop appends, in file order, the chunks of exactly the files
whose processing succeeded. -/
theorem splitLoop_eq (l : List (String × FileOutcome)) (acc : List Chunk) :
    splitLoop acc l = acc ++ (l.filterMap (fun e => e.2.toOption)).flatten := by
  induction l generalizing acc with
  | nil => simp [splitLoop]
  | cons e rest ih =>
    cases h : e.2 with
    | ok chunks => simp [splitLoop, h, ih, Except.toOption]
    | error m => simp [splitLoop, h, ih, Except.toOption]

/-! ## Claims -/

/-- C6. `load_and_split_all_pdfs` treats a single file's failure as
non-fatal: its result is the concatenation, in directory order, of the
chunks of the eligible (`.pdf`) files that succeeded, failed files being
skipped; it returns `[]`, not an error, when the directory does not exist
or has no eligible PDF files. -/
theorem claim_C6 :
    (load_and_split_all_pdfs none = []) ∧
    (∀ entries, entries.filter (fun e => endsWithPdf e.1) = [] →
      load_and_split_all_pdfs (some entries) = []) ∧
    (∀ entries, load_and_split_all_pdfs (some entries) =
      ((entries.filter (fun e => endsWithPdf e.1)).filterMap
        (fun e => e.2.toOption)).flatten) := by
  refine ⟨rfl, ?_, ?_⟩
  · intro entries h
    simp [load_and_split_all_pdfs, h]
  · intro entries
    simp only [load_and_split_all_pdfs]
    by_cases h : (entries.filter (fun e => endsWithPdf e.1)).isEmpty
    · rw [List.isEmpty_iff] at h
      simp [h]
    · simp [h, splitLoop_eq]

/-- C6 witness: a directory holding one corrupt PDF, one good PDF and one
non-PDF yields exactly the good file's chunks. -/
theorem claim_C6_witness :
    load_and_split_all_pdfs
      (some [("bad.pdf", Except.error "ProcessingError"),
             ("good.pdf", Except.ok [chunk0]),
             ("notes.txt", Except.ok [chunk0, chunk0])]) = [chunk0] ∧
    load_and_split_all_pdfs (some [("notes.txt", Except.ok [chunk0])]) = [] := by
  constructor
  · rw [claim_C6.2.2]
    rfl
  · exact claim_C6.2.1 [("notes.txt", Except.ok [chunk0])] rfl

/-- C7. `clear_vector_store` is idempotent — clearing twice leaves the
same state as clearing once — and clearing when no persisted directory
exists is a no-op that raises no error (the model is total: the method
returns normally on the `none` state, leaving it unchanged). -/
theorem claim_C7 :
    (∀ fs, clear_vector_store (clear_vector_store fs) = clear_vector_store fs) ∧
    clear_vector_store { persist := none } = { persist := none } := by
  constructor
  · intro fs
    cases fs with
    | mk p => cases p <;> rfl
  · rfl

/-- C10 counterexample: when the persist directory does not exist,
`clear_vector_store` returns with the path still absent — the directory
does not "always exist and be empty" after a successful clear. -/
theorem claim_C10_counterexample :
    (clear_vector_store { persist := none }).persist = none ∧
    (clear_vector_store { persist := none }).persist ≠ some [] := by
  exact ⟨rfl, by decide⟩

/-- C10 amended: after `clear_vector_store` returns, the directory exists
and is empty *when it existed beforehand* (delete-then-recreate); when the
path was absent, the guard `os.path.exists` skips both steps and the path
remains absent. -/
theorem claim_C10_amended (fs : VectorFS) :
    (clear_vector_store fs).persist =
      match fs.persist with
      | some _ => some ([] : List Chunk)
      | none => none := by
  cases fs with
  | mk p => cases p <;> rfl

/-- C2 counterexample: with no persisted index — the path absent, or just
after `clear_vector_store` has emptied it — `load_vector_store` does not
fail with `NotFound`: it returns an empty store as if it were valid
(the Chroma constructor creates the collection on demand). -/
theorem claim_C2_counterexample :
    load_vector_store { persist := none } = Except.ok [] ∧
    load_vector_store (clear_vector_store { persist := some [chunk0] }) =
      Except.ok [] := by
  exact ⟨rfl, rfl⟩

/-- C2 amended: when no persisted index exists (directory absent or
empty), `load_vector_store` *succeeds* and returns an empty index; the
code performs no existence check and the Chroma constructor never raises
for a missing store, so no `NotFound` failure is possible there. -/
theorem claim_C2_amended (fs : VectorFS)
    (h : fs.persist = none ∨ fs.persist = some []) :
    load_vector_store fs = Except.ok [] := by
  rcases h with h | h <;> simp [load_vector_store, chromaOpen, h]

/-- C2 amended, witness at the absent-directory state. -/
theorem claim_C2_amended_witness :
    load_vector_store { persist := none } = Except.ok [] :=
  claim_C2_amended { persist := none } (Or.inl rfl)

/-- `tenacityRun` unrolling: a successful attempt ends the run there. -/
theorem tenacityRun_ok (call : Nat → Except PyErr String) (attempt rem : Nat)
    (v : String) (h : call attempt = Except.ok v) :
    tenacityRun call attempt (rem + 1) = (RetryResult.ok v, attempt) := by
  simp [tenacityRun, h]

/-- `tenacityRun` unrolling: a failed attempt with no allowance left
produces a `RetryError` wrapping that failure. -/
theorem tenacityRun_error_last (call : Nat → Except PyErr String) (attempt : Nat)
    (e : PyErr) (h : call attempt = Except.error e) :
    tenacityRun call attempt 1 = (RetryResult.retryError e, attempt) := by
  show tenacityRun call attempt (0 + 1) = _
  simp [tenacityRun, h]

/-- `tenacityRun` unrolling: a failed attempt with allowance left moves on
to the next attempt — whatever the exception was. -/
theorem tenacityRun_error_step (call : Nat → Except PyErr String) (attempt rem : Nat)
    (e : PyErr) (h : call attempt = Except.error e) :
    tenacityRun call attempt (rem + 2) = tenacityRun call (attempt + 1) (rem + 1) := by
  show tenacityRun call attempt ((rem + 1) + 1) = _
  simp [tenacityRun, h]

/-- C3 counterexample: against a bucket where the object is absent
(`head_object` answers `404` on every attempt), `download_pdf` makes all
3 attempts — the `NotFound` failure is retried, so retrying is *not*
restricted to transient errors — and the caller then receives a tenacity
`RetryError` wrapping the `FileNotFoundError`, not the `NotFound` failure
itself. -/
theorem claim_C3_counterexample :
    download_pdf "raggy-1" "./data" (fun _ => S3Event.headClientError "404")
        "missing.pdf" =
      (RetryResult.retryError
        (PyErr.fileNotFound "File missing.pdf not found in S3 bucket raggy-1"), 3) := by
  decide

/-- C3 amended: `download_pdf` retries on *any* exception of its body (the
tenacity decorator carries no exception filter), making up to 3 attempts
with exponential backoff; when every attempt fails, the caller receives a
`RetryError` wrapping the third attempt's exception rather than that
exception itself. In particular a `NotFound` failure consumes all 3
attempts and surfaces wrapped. -/
theorem claim_C3_amended (bucket localPath filename : String) (env : Nat → S3Event)
    (h : ∀ n, ∃ e, download_attempt bucket filename
        (localPath ++ "/" ++ filename) (env n) = Except.error e) :
    ∃ e, download_attempt bucket filename (localPath ++ "/" ++ filename) (env 3)
        = Except.error e ∧
      download_pdf bucket localPath env filename = (RetryResult.retryError e, 3) := by
  obtain ⟨e1, h1⟩ := h 1
  obtain ⟨e2, h2⟩ := h 2
  obtain ⟨e3, h3⟩ := h 3
  refine ⟨e3, h3, ?_⟩
  calc
    download_pdf bucket localPath env filename
        = tenacityRun (fun n => download_attempt bucket filename
            (localPath ++ "/" ++ filename) (env n)) 2 2 :=
      tenacityRun_error_step _ 1 1 e1 h1
    _ = tenacityRun (fun n => download_attempt bucket filename
          (localPath ++ "/" ++ filename) (env n)) 3 1 :=
      tenacityRun_error_step _ 2 0 e2 h2
    _ = (RetryResult.retryError e3, 3) :=
      tenacityRun_error_last _ 3 e3 h3

/-- C3 amended, witness: the absent-object environment makes every attempt
fail, so all 3 attempts run and the result is the wrapped `NotFound`. -/
theorem claim_C3_amended_witness :
    ∃ e, download_attempt "raggy-1" "missing.pdf" ("./data" ++ "/" ++ "missing.pdf")
        ((fun _ => S3Event.headClientError "404") 3) = Except.error e ∧
      download_pdf "raggy-1" "./data" (fun _ => S3Event.headClientError "404")
        "missing.pdf" = (RetryResult.retryError e, 3) :=
  claim_C3_amended "raggy-1" "./data" "missing.pdf"
    (fun _ => S3Event.headClientError "404")
    (fun _ => ⟨PyErr.fileNotFound "File missing.pdf not found in S3 bucket raggy-1",
      rfl⟩)

/-- C4 counterexample: `"a b"` has only 2 non-whitespace characters after
trimming, yet `RAGChain.query` accepts it (its check counts *all*
characters of the stripped string, the interior space included), so the
claimed reject-iff-fewer-than-3-non-whitespace rule is false. -/
theorem claim_C4_counterexample :
    ((pyStrip "a b").data.filter (fun c => !isStripWs c)).length = 2 ∧
    (RAGChain_query (Except.ok ()) (fun _ _ => Except.ok "an answer") rcFresh
        (some "a b")).1 = Except.ok "an answer" := by
  exact ⟨rfl, rfl⟩

/-- C4 amended: `RAGChain.query` rejects the question with `InvalidInput`
(the `ValueError`) if and only if it is not a string, or the string has
fewer than 3 *characters* after trimming — interior whitespace counts
toward the 3. `query("")`, `query("  ")` and `query("hi")` are instances
of the right-hand side, so they are rejected. -/
theorem claim_C4_amended (llmOk : Except String Unit)
    (invoke : Chain → String → Except String String)
    (rc : RAGChainS) (question : Option String) :
    (RAGChain_query llmOk invoke rc question).1 = Except.error QueryErr.invalidInput ↔
      (question = none ∨ ∃ q, question = some q ∧ (pyStrip q).length < 3) := by
  cases question with
  | none => simp [RAGChain_query]
  | some q =>
    by_cases h : (pyStrip q).length < 3
    · simp [RAGChain_query, h]
    · cases hrc : rc.chain with
      | some c =>
        cases hinv : invoke c q <;> simp [RAGChain_query, h, hrc, hinv]
      | none =>
        cases hllm : llmOk with
        | error m => simp [RAGChain_query, build_chain, h, hrc, hllm]
        | ok u =>
          cases hinv : invoke (mkChain rc) q <;>
            simp [RAGChain_query, build_chain, h, hrc, hllm, hinv]

/-- C9. Calling `RAGChain.query` with a valid question before
`build_chain` has ever run does not fail: the chain is built lazily
(assuming its constructors succeed), the question is answered, and the
`chain` attribute is mutated to the built chain as a side effect. -/
theorem claim_C9 (invoke : Chain → String → Except String String)
    (rc : RAGChainS) (q ans : String)
    (hchain : rc.chain = none)
    (hq : 3 ≤ (pyStrip q).length)
    (hinv : invoke (mkChain rc) q = Except.ok ans) :
    RAGChain_query (Except.ok ()) invoke rc (some q) =
      (Except.ok ans, { rc with chain := some (mkChain rc) }) := by
  simp [RAGChain_query, Nat.not_lt.mpr hq, hchain, build_chain, hinv]

/-- C9 witness: a never-built chain answers its first query and ends up
with the chain attribute set. -/
theorem claim_C9_witness :
    RAGChain_query (Except.ok ()) (fun _ _ => Except.ok "an answer") rcFresh
        (some "What is RAG?") =
      (Except.ok "an answer", { rcFresh with chain := some (mkChain rcFresh) }) :=
  claim_C9 (fun _ _ => Except.ok "an answer") rcFresh "What is RAG?" "an answer"
    rfl (by decide) rfl

/-- C5 counterexample: with no session (`rag_chain` is `None`),
`run_queries` returns `None` to the caller instead of raising a
`NotReady` error — the claimed exception never happens. -/
theorem claim_C5_counterexample :
    run_queries (Except.ok ()) (fun _ q => Except.ok q)
      { fs := { persist := none }, rag_chain := none } ["What is RAG?"] = none := rfl

/-- C5 amended: when no session exists, the orchestrator's query operation
logs an error and returns `None` (a silent plain `return`); no exception
reaches the caller, for any question list. -/
theorem claim_C5_amended (llmOk : Except String Unit)
    (invoke : Chain → String → Except String String)
    (st : SysState) (questions : List String)
    (h : st.rag_chain = none) :
    run_queries llmOk invoke st questions = none := by
  simp [run_queries, h]

/-- C5 amended, witness on a two-question batch. -/
theorem claim_C5_amended_witness :
    run_queries (Except.ok ()) (fun _ _ => Except.ok "a")
      { fs := { persist := some [chunk0] }, rag_chain := none } ["q1", "q2"] = none :=
  claim_C5_amended (Except.ok ()) (fun _ _ => Except.ok "a")
    { fs := { persist := some [chunk0] }, rag_chain := none } ["q1", "q2"] rfl

/-- C1 counterexample: with `force_rebuild=False`, a usable persisted
index on disk, all capabilities healthy, but an empty local document
directory, `initialize_system` raises the no-PDFs `FileNotFoundError`
instead of skipping ingestion and loading the persisted index. -/
theorem claim_C1_counterexample :
    (initSystem cfg0 envEmptyDir stReady false none false).1 =
      some (InitErr.noPdfs "./data") ∧
    stReady.fs.persist = some [chunk0] := by
  exact ⟨rfl, rfl⟩

/-- C1 amended: the document scan (STEP 3) runs unconditionally before
any index load, so whenever the scanned directory contains no PDF files
— and steps 1-2 themselves succeed — `initialize_system` raises the
no-PDFs error and leaves the state untouched, regardless of
`force_rebuild` and of any usable persisted index. Documents are required
even when the persisted index would only be loaded. -/
theorem claim_C1_amended (cfg : RAGConfig) (env : InitEnv) (st : SysState)
    (download_new : Bool) (pdf_filename : Option String) (force_rebuild : Bool)
    (entries : List DirEntry)
    (hemb : env.embedInit = Except.ok ())
    (hs3 : env.s3 1 = S3Event.downloadOk)
    (hdir : env.dataDir = some entries)
    (hscan : pdfScan entries = []) :
    initSystem cfg env st download_new pdf_filename force_rebuild =
      (some (InitErr.noPdfs cfg.DATA_DIR), st) := by
  have hdp : (download_pdf cfg.S3_BUCKET_NAME cfg.DATA_DIR env.s3
      (pdf_filename.getD "")).1 =
      RetryResult.ok (cfg.DATA_DIR ++ "/" ++ pdf_filename.getD "") := by
    have h := tenacityRun_ok
      (fun n => download_attempt cfg.S3_BUCKET_NAME (pdf_filename.getD "")
        (cfg.DATA_DIR ++ "/" ++ pdf_filename.getD "") (env.s3 n)) 1 2
      (cfg.DATA_DIR ++ "/" ++ pdf_filename.getD "")
      (by show download_attempt _ _ _ (env.s3 1) = _
          rw [hs3]
          rfl)
    exact congrArg Prod.fst h
  cases hdl : download_new && truthyStr pdf_filename with
  | false => simp [initSystem, hemb, hdir, hscan, hdl]
  | true => simp [initSystem, hemb, hdir, hscan, hdl, hdp]

/-- C1 amended, witness: a requested (and successful) S3 download followed
by the scan of an empty directory still ends in the no-PDFs error, with
a usable persisted index present and `force_rebuild=False`. -/
theorem claim_C1_amended_witness :
    initSystem cfg0 envEmptyDir stReady true (some "new.pdf") false =
      (some (InitErr.noPdfs "./data"), stReady) :=
  claim_C1_amended cfg0 envEmptyDir stReady true (some "new.pdf") false []
    rfl rfl rfl rfl

/-- C8. If `initialize_system` raises at any step before the new RAG
chain is constructed (embeddings load, download, document scan, the
no-chunks check, or vector-store creation — every error except the
chain-build one), the `rag_chain` attribute keeps its prior value, so a
previously bound session still serves queries exactly as before the
failed call. -/
theorem claim_C8 (cfg : RAGConfig) (env : InitEnv) (st : SysState)
    (download_new : Bool) (pdf_filename : Option String) (force_rebuild : Bool)
    (e : InitErr)
    (herr : (initSystem cfg env st download_new pdf_filename force_rebuild).1 = some e)
    (hnb : ∀ m, e ≠ InitErr.buildChainError m) :
    (initSystem cfg env st download_new pdf_filename force_rebuild).2.rag_chain =
        st.rag_chain ∧
      ∀ llmOk invoke questions,
        run_queries llmOk invoke
            (initSystem cfg env st download_new pdf_filename force_rebuild).2
            questions =
          run_queries llmOk invoke st questions := by
  have hrc : (initSystem cfg env st download_new pdf_filename force_rebuild).2.rag_chain
      = st.rag_chain := by
    revert herr
    unfold initSystem
    repeat' split
    all_goals intro herr
    all_goals
      first
      | rfl
      | exact Option.noConfusion herr
      | exact absurd (Option.some.inj herr).symm (hnb _)
  refine ⟨hrc, ?_⟩
  intro llmOk invoke questions
  simp [run_queries, hrc]

/-- C8 witness: after a failed `initialize_system` (empty document
directory, forced rebuild), the `rag_chain` attribute is unchanged. -/
theorem claim_C8_witness :
    (initSystem cfg0 envEmptyDir stReady false none true).2.rag_chain =
        stReady.rag_chain ∧
      ∀ llmOk invoke questions,
        run_queries llmOk invoke (initSystem cfg0 envEmptyDir stReady false none true).2
            questions =
          run_queries llmOk invoke stReady questions :=
  claim_C8 cfg0 envEmptyDir stReady false none true (InitErr.noPdfs "./data") rfl
    (fun _ h => InitErr.noConfusion h)

end RagFlask
